import Mathlib

/-!
Verification of the MongoDB query-runner adapter
(`src/driver/mongodb/MongoQueryRunner.ts`).

The adapter holds a transaction-active flag and an optional client session,
forwards data operations to the underlying MongoDB client, rejects all
schema-definition operations, and wraps the client session's transaction
lifecycle.  External collaborators (the event broadcaster, the client, the
session) can fail; those outcomes are modelled as explicit `Except` values
supplied by an environment record, and every external call the adapter makes
is recorded as an `Event` so that "never contacts the client" and "no
notification fired" are provable statements about the emitted trace.
-/

namespace MongoQueryRunner

/-- A MongoDB client session handle (`ClientSession` in the source), identified
abstractly by a number; the adapter only stores and compares the reference. -/
structure ClientSession where
  sid : Nat
deriving DecidableEq, Repr

/-- Errors the adapter can raise or propagate: `TransactionNotStartedError`,
`TypeORMError` with its message, a failure raised by a broadcaster listener,
and a failure raised by the underlying client or session. -/
inductive TError where
  | transactionNotStarted
  | typeORMError (msg : String)
  | broadcastError (n : Nat)
  | clientError (n : Nat)
deriving DecidableEq, Repr

/-- Observable external calls made by the adapter: a broadcaster notification,
`databaseConnection.startSession()`, `session.startTransaction()`,
`session.commitTransaction()`, `session.abortTransaction()`,
`session.endSession()`, and a logger line. -/
inductive Event where
  | broadcast (name : String)
  | startSession
  | sessionBegin (s : ClientSession)
  | sessionCommit (s : ClientSession)
  | sessionAbort (s : ClientSession)
  | sessionEnd (s : ClientSession)
  | logQuery (q : String)
deriving DecidableEq, Repr

/-- The connection configuration consulted by the transaction methods
(`MongoConnectionOptions`); only `enableTransactions` is read here. -/
structure MongoConnectionOptions where
  enableTransactions : Bool
deriving DecidableEq, Repr

/-- The mutable state of a `MongoQueryRunner`: the `isTransactionActive` flag
and the optional `session` reference. -/
structure RunnerState where
  isTransactionActive : Bool
  session : Option ClientSession
deriving DecidableEq, Repr

/-- A fresh runner: `isTransactionActive = false`, `session = undefined`. -/
def initialState : RunnerState := ⟨false, none⟩

/-- Outcomes of the external calls `startTransaction` performs, in source
order: the `BeforeTransactionStart` broadcast, `startSession()` (returning the
new session on success), `session.startTransaction()`, and the
`AfterTransactionStart` broadcast. -/
structure StartEnv where
  beforeStart : Except TError Unit
  startSession : Except TError ClientSession
  beginTx : Except TError Unit
  afterStart : Except TError Unit

/-- Outcomes of the external calls `commitTransaction` / `rollbackTransaction`
perform, in source order: the before broadcast, the session's
commit/abort call, `endSession()`, and the after broadcast. -/
structure TxEndEnv where
  beforeBroadcast : Except TError Unit
  endTx : Except TError Unit
  endSession : Except TError Unit
  afterBroadcast : Except TError Unit

/-- `startTransaction` (source lines 635-659).  Returns immediately when
transactions are disabled; otherwise sets the active flag, fires
`BeforeTransactionStart` (reverting the flag and rethrowing on failure),
creates a session via `startSession()`, begins the transaction on it, logs
`BEGIN TRANSACTION`, and fires `AfterTransactionStart`.  The result is the
returned/thrown outcome, the runner state afterwards, and the trace of
external calls. -/
def startTransaction (opts : MongoConnectionOptions) (env : StartEnv)
    (st : RunnerState) : Except TError Unit × RunnerState × List Event :=
  if opts.enableTransactions = false then
    (.ok (), st, [])
  else
    let st1 : RunnerState := { st with isTransactionActive := true }
    match env.beforeStart with
    | .error e =>
        (.error e, { st1 with isTransactionActive := false },
          [.broadcast "BeforeTransactionStart"])
    | .ok _ =>
      match env.startSession with
      | .error e =>
          (.error e, st1, [.broadcast "BeforeTransactionStart", .startSession])
      | .ok s =>
        let st2 : RunnerState := { st1 with session := some s }
        match env.beginTx with
        | .error e =>
            (.error e, st2,
              [.broadcast "BeforeTransactionStart", .startSession,
               .sessionBegin s])
        | .ok _ =>
          match env.afterStart with
          | .error e =>
              (.error e, st2,
                [.broadcast "BeforeTransactionStart", .startSession,
                 .sessionBegin s, .logQuery "BEGIN TRANSACTION",
                 .broadcast "AfterTransactionStart"])
          | .ok _ =>
              (.ok (), st2,
                [.broadcast "BeforeTransactionStart", .startSession,
                 .sessionBegin s, .logQuery "BEGIN TRANSACTION",
                 .broadcast "AfterTransactionStart"])

/-- `commitTransaction` (source lines 664-686).  No-op when transactions are
disabled; `TransactionNotStartedError` when the flag is down; otherwise fires
`BeforeTransactionCommit`, then `session?.commitTransaction()` and
`session?.endSession()` (both skipped when the session reference is
undefined, per the optional chaining), clears the flag and the session,
fires `AfterTransactionCommit`, and logs `COMMIT`.  A failure of the
session calls leaves the flag and session untouched. -/
def commitTransaction (opts : MongoConnectionOptions) (env : TxEndEnv)
    (st : RunnerState) : Except TError Unit × RunnerState × List Event :=
  if opts.enableTransactions = false then
    (.ok (), st, [])
  else if st.isTransactionActive = false then
    (.error .transactionNotStarted, st, [])
  else
    match env.beforeBroadcast with
    | .error e => (.error e, st, [.broadcast "BeforeTransactionCommit"])
    | .ok _ =>
      match st.session with
      | none =>
        let st' : RunnerState := ⟨false, none⟩
        match env.afterBroadcast with
        | .error e =>
            (.error e, st',
              [.broadcast "BeforeTransactionCommit",
               .broadcast "AfterTransactionCommit"])
        | .ok _ =>
            (.ok (), st',
              [.broadcast "BeforeTransactionCommit",
               .broadcast "AfterTransactionCommit", .logQuery "COMMIT"])
      | some s =>
        match env.endTx with
        | .error e =>
            (.error e, st,
              [.broadcast "BeforeTransactionCommit", .sessionCommit s])
        | .ok _ =>
          match env.endSession with
          | .error e =>
              (.error e, st,
                [.broadcast "BeforeTransactionCommit", .sessionCommit s,
                 .sessionEnd s])
          | .ok _ =>
            let st' : RunnerState := ⟨false, none⟩
            match env.afterBroadcast with
            | .error e =>
                (.error e, st',
                  [.broadcast "BeforeTransactionCommit", .sessionCommit s,
                   .sessionEnd s, .broadcast "AfterTransactionCommit"])
            | .ok _ =>
                (.ok (), st',
                  [.broadcast "BeforeTransactionCommit", .sessionCommit s,
                   .sessionEnd s, .broadcast "AfterTransactionCommit",
                   .logQuery "COMMIT"])

/-- `rollbackTransaction` (source lines 691-712); symmetric to
`commitTransaction` with `abortTransaction`, the rollback notifications and
the `ROLLBACK` log line. -/
def rollbackTransaction (opts : MongoConnectionOptions) (env : TxEndEnv)
    (st : RunnerState) : Except TError Unit × RunnerState × List Event :=
  if opts.enableTransactions = false then
    (.ok (), st, [])
  else if st.isTransactionActive = false then
    (.error .transactionNotStarted, st, [])
  else
    match env.beforeBroadcast with
    | .error e => (.error e, st, [.broadcast "BeforeTransactionRollback"])
    | .ok _ =>
      match st.session with
      | none =>
        let st' : RunnerState := ⟨false, none⟩
        match env.afterBroadcast with
        | .error e =>
            (.error e, st',
              [.broadcast "BeforeTransactionRollback",
               .broadcast "AfterTransactionRollback"])
        | .ok _ =>
            (.ok (), st',
              [.broadcast "BeforeTransactionRollback",
               .broadcast "AfterTransactionRollback", .logQuery "ROLLBACK"])
      | some s =>
        match env.endTx with
        | .error e =>
            (.error e, st,
              [.broadcast "BeforeTransactionRollback", .sessionAbort s])
        | .ok _ =>
          match env.endSession with
          | .error e =>
              (.error e, st,
                [.broadcast "BeforeTransactionRollback", .sessionAbort s,
                 .sessionEnd s])
          | .ok _ =>
            let st' : RunnerState := ⟨false, none⟩
            match env.afterBroadcast with
            | .error e =>
                (.error e, st',
                  [.broadcast "BeforeTransactionRollback", .sessionAbort s,
                   .sessionEnd s, .broadcast "AfterTransactionRollback"])
            | .ok _ =>
                (.ok (), st',
                  [.broadcast "BeforeTransactionRollback", .sessionAbort s,
                   .sessionEnd s, .broadcast "AfterTransactionRollback",
                   .logQuery "ROLLBACK"])

/-- A call the adapter issues on a collection handle of the underlying
client: the collection name (from `getCollection`), the client method
invoked, and the session value placed in the call's options (`none` when the
options carry no session, or carry the runner's undefined session). -/
structure CollectionCall where
  collection : String
  method : String
  session : Option ClientSession
deriving DecidableEq, Repr

/-- `cursor` (lines 146-148): `find(query || {})`, no options object, so no
session is forwarded. -/
def cursor (_st : RunnerState) (collectionName : String) : CollectionCall :=
  ⟨collectionName, "find", none⟩

/-- `aggregate` (lines 153-162): options spread with `session: this.session`. -/
def aggregate (st : RunnerState) (collectionName : String) : CollectionCall :=
  ⟨collectionName, "aggregate", st.session⟩

/-- `bulkWrite` (lines 167-176): options spread with `session: this.session`. -/
def bulkWrite (st : RunnerState) (collectionName : String) : CollectionCall :=
  ⟨collectionName, "bulkWrite", st.session⟩

/-- `count` (lines 181-190): `countDocuments` with options spread and
`session: this.session`. -/
def count (st : RunnerState) (collectionName : String) : CollectionCall :=
  ⟨collectionName, "countDocuments", st.session⟩

/-- `createCollectionIndex` (lines 195-204): `createIndex` with options
spread and `session: this.session`. -/
def createCollectionIndex (st : RunnerState) (collectionName : String) :
    CollectionCall :=
  ⟨collectionName, "createIndex", st.session⟩

/-- `createCollectionIndexes` (lines 210-217): `createIndexes(indexSpecs)`
with no options object, so no session is forwarded. -/
def createCollectionIndexes (_st : RunnerState) (collectionName : String) :
    CollectionCall :=
  ⟨collectionName, "createIndexes", none⟩

/-- `deleteMany` (lines 222-231): options spread with `session: this.session`. -/
def deleteMany (st : RunnerState) (collectionName : String) : CollectionCall :=
  ⟨collectionName, "deleteMany", st.session⟩

/-- `deleteOne` (lines 236-245): options spread with `session: this.session`. -/
def deleteOne (st : RunnerState) (collectionName : String) : CollectionCall :=
  ⟨collectionName, "deleteOne", st.session⟩

/-- `distinct` (lines 250-260): options spread with `session: this.session`. -/
def distinct (st : RunnerState) (collectionName : String) : CollectionCall :=
  ⟨collectionName, "distinct", st.session⟩

/-- `dropCollectionIndex` (lines 265-274): `dropIndex` with options spread
and `session: this.session`. -/
def dropCollectionIndex (st : RunnerState) (collectionName : String) :
    CollectionCall :=
  ⟨collectionName, "dropIndex", st.session⟩

/-- `dropCollectionIndexes` (lines 279-281): `dropIndexes()` with no
arguments, so no session is forwarded. -/
def dropCollectionIndexes (_st : RunnerState) (collectionName : String) :
    CollectionCall :=
  ⟨collectionName, "dropIndexes", none⟩

/-- `findOneAndDelete` (lines 286-295): options spread with
`session: this.session`. -/
def findOneAndDelete (st : RunnerState) (collectionName : String) :
    CollectionCall :=
  ⟨collectionName, "findOneAndDelete", st.session⟩

/-- `findOneAndReplace` (lines 300-311): options spread with
`session: this.session`. -/
def findOneAndReplace (st : RunnerState) (collectionName : String) :
    CollectionCall :=
  ⟨collectionName, "findOneAndReplace", st.session⟩

/-- `findOneAndUpdate` (lines 316-327): options spread with
`session: this.session`. -/
def findOneAndUpdate (st : RunnerState) (collectionName : String) :
    CollectionCall :=
  ⟨collectionName, "findOneAndUpdate", st.session⟩

/-- `geoHaystackSearch` (lines 332-343): the caller's options are passed
verbatim (no spread, no `session` field in their type), so the runner's
session is never forwarded. -/
def geoHaystackSearch (_st : RunnerState) (collectionName : String) :
    CollectionCall :=
  ⟨collectionName, "geoHaystackSearch", none⟩

/-- `geoNear` (lines 348-355): options passed verbatim, so the runner's
session is never forwarded. -/
def geoNear (_st : RunnerState) (collectionName : String) : CollectionCall :=
  ⟨collectionName, "geoNear", none⟩

/-- `group` (lines 360-379): options spread with `session: this.session`. -/
def group (st : RunnerState) (collectionName : String) : CollectionCall :=
  ⟨collectionName, "group", st.session⟩

/-- `collectionIndexes` (lines 384-386): `indexes()` with no arguments, so no
session is forwarded. -/
def collectionIndexes (_st : RunnerState) (collectionName : String) :
    CollectionCall :=
  ⟨collectionName, "indexes", none⟩

/-- `collectionIndexExists` (lines 391-396): `indexExists(indexes)` with no
options object, so no session is forwarded. -/
def collectionIndexExists (_st : RunnerState) (collectionName : String) :
    CollectionCall :=
  ⟨collectionName, "indexExists", none⟩

/-- `collectionIndexInformation` (lines 401-408): options passed verbatim
(`{ full: boolean }`, no session field), so the runner's session is never
forwarded. -/
def collectionIndexInformation (_st : RunnerState) (collectionName : String) :
    CollectionCall :=
  ⟨collectionName, "indexInformation", none⟩

/-- `initializeOrderedBulkOp` (lines 413-421): options spread with
`session: this.session`. -/
def initializeOrderedBulkOp (st : RunnerState) (collectionName : String) :
    CollectionCall :=
  ⟨collectionName, "initializeOrderedBulkOp", st.session⟩

/-- `initializeUnorderedBulkOp` (lines 426-434): options spread with
`session: this.session`. -/
def initializeUnorderedBulkOp (st : RunnerState) (collectionName : String) :
    CollectionCall :=
  ⟨collectionName, "initializeUnorderedBulkOp", st.session⟩

/-- `insertMany` (lines 439-448): options spread with `session: this.session`. -/
def insertMany (st : RunnerState) (collectionName : String) : CollectionCall :=
  ⟨collectionName, "insertMany", st.session⟩

/-- `insertOne` (lines 453-462): options spread with `session: this.session`. -/
def insertOne (st : RunnerState) (collectionName : String) : CollectionCall :=
  ⟨collectionName, "insertOne", st.session⟩

/-- `isCapped` (lines 467-469): `isCapped()` with no arguments, so no session
is forwarded. -/
def isCapped (_st : RunnerState) (collectionName : String) : CollectionCall :=
  ⟨collectionName, "isCapped", none⟩

/-- `listCollectionIndexes` (lines 474-485): `listIndexes` with options
spread and `session: this.session`. -/
def listCollectionIndexes (st : RunnerState) (collectionName : String) :
    CollectionCall :=
  ⟨collectionName, "listIndexes", st.session⟩

/-- `mapReduce` (lines 490-500): options spread with `session: this.session`. -/
def mapReduce (st : RunnerState) (collectionName : String) : CollectionCall :=
  ⟨collectionName, "mapReduce", st.session⟩

/-- `parallelCollectionScan` (lines 506-514): options spread with
`session: this.session`. -/
def parallelCollectionScan (st : RunnerState) (collectionName : String) :
    CollectionCall :=
  ⟨collectionName, "parallelCollectionScan", st.session⟩

/-- `reIndex` (lines 519-521): `reIndex()` with no arguments, so no session
is forwarded. -/
def reIndex (_st : RunnerState) (collectionName : String) : CollectionCall :=
  ⟨collectionName, "reIndex", none⟩

/-- `rename` (lines 526-532): `rename(newName, options)` with the caller's
options passed verbatim (`{ dropTarget?: boolean }`, no session field), so
the runner's session is never forwarded. -/
def rename (_st : RunnerState) (collectionName : String)
    (_newName : String) : CollectionCall :=
  ⟨collectionName, "rename", none⟩

/-- `replaceOne` (lines 537-547): options spread with `session: this.session`. -/
def replaceOne (st : RunnerState) (collectionName : String) : CollectionCall :=
  ⟨collectionName, "replaceOne", st.session⟩

/-- `stats` (lines 552-557): `stats(options)` with the caller's options passed
verbatim (`{ scale: number }`, no session field), so the runner's session is
never forwarded. -/
def stats (_st : RunnerState) (collectionName : String) : CollectionCall :=
  ⟨collectionName, "stats", none⟩

/-- `watch` (lines 562-571): options spread with `session: this.session`. -/
def watch (st : RunnerState) (collectionName : String) : CollectionCall :=
  ⟨collectionName, "watch", st.session⟩

/-- `updateMany` (lines 576-587): options spread with `session: this.session`. -/
def updateMany (st : RunnerState) (collectionName : String) : CollectionCall :=
  ⟨collectionName, "updateMany", st.session⟩

/-- `updateOne` (lines 592-603): options spread with `session: this.session`. -/
def updateOne (st : RunnerState) (collectionName : String) : CollectionCall :=
  ⟨collectionName, "updateOne", st.session⟩

/-- A call the adapter issues on a database handle of the client
(`databaseConnection.db(...)`): the database name, the method invoked, its
target collection when there is one, and the session placed in the call's
options (always absent in the source). -/
structure DbCall where
  database : String
  method : String
  target : Option String
  session : Option ClientSession
deriving DecidableEq, Repr

/-- `clearDatabase` (lines 614-618):
`databaseConnection.db(database).dropDatabase()` with no options, regardless
of the runner state. -/
def clearDatabase (_st : RunnerState) (database : String) : DbCall :=
  ⟨database, "dropDatabase", none, none⟩

/-- `clearTable` (lines 1335-1339):
`databaseConnection.db(database).dropCollection(collectionName)` with no
options, regardless of the runner state. -/
def clearTable (_st : RunnerState) (database : String)
    (collectionName : String) : DbCall :=
  ⟨database, "dropCollection", some collectionName, none⟩

/-- Vestigial table descriptor (never populated for this backend). -/
structure Table where
  name : String
deriving DecidableEq, Repr

/-- Vestigial view descriptor. -/
structure View where
  name : String
deriving DecidableEq, Repr

/-- Vestigial column descriptor. -/
structure TableColumn where
  name : String
deriving DecidableEq, Repr

/-- Vestigial index descriptor. -/
structure TableIndex where
  name : String
deriving DecidableEq, Repr

/-- Vestigial unique-constraint descriptor. -/
structure TableUnique where
  name : String
deriving DecidableEq, Repr

/-- Vestigial check-constraint descriptor. -/
structure TableCheck where
  name : String
deriving DecidableEq, Repr

/-- Vestigial exclusion-constraint descriptor. -/
structure TableExclusion where
  name : String
deriving DecidableEq, Repr

/-- Vestigial foreign-key descriptor. -/
structure TableForeignKey where
  name : String
deriving DecidableEq, Repr

/-- Body shared by every unsupported operation:
`throw new TypeORMError(msg)` and no call on the underlying client. -/
def throwTypeORM (msg : String) : Except TError Unit × List Event :=
  (.error (.typeORMError msg), [])

/-- `query` (lines 717-721). -/
def query (_q : String) (_parameters : List String) :
    Except TError Unit × List Event :=
  throwTypeORM "Executing SQL query is not supported by MongoDB driver."

/-- `stream` (lines 726-735). -/
def stream (_q : String) (_parameters : List String) :
    Except TError Unit × List Event :=
  throwTypeORM "Stream is not supported by MongoDB driver. Use watch instead."

/-- `createDatabase` (lines 892-896). -/
def createDatabase (_database : String) : Except TError Unit × List Event :=
  throwTypeORM "Database create queries are not supported by MongoDB driver."

/-- `dropDatabase` (lines 901-905). -/
def dropDatabase (_database : String) (_ifExist : Bool) :
    Except TError Unit × List Event :=
  throwTypeORM "Database drop queries are not supported by MongoDB driver."

/-- `createSchema` (lines 910-917). -/
def createSchema (_schemaPath : String) (_ifNotExist : Bool) :
    Except TError Unit × List Event :=
  throwTypeORM "Schema create queries are not supported by MongoDB driver."

/-- `dropSchema` (lines 922-926). -/
def dropSchema (_schemaPath : String) (_ifExist : Bool) :
    Except TError Unit × List Event :=
  throwTypeORM "Schema drop queries are not supported by MongoDB driver."

/-- `createTable` (lines 931-935). -/
def createTable (_table : Table) : Except TError Unit × List Event :=
  throwTypeORM "Schema update queries are not supported by MongoDB driver."

/-- `dropTable` (lines 940-944). -/
def dropTable (_tableName : Table ⊕ String) : Except TError Unit × List Event :=
  throwTypeORM "Schema update queries are not supported by MongoDB driver."

/-- `createView` (lines 949-953). -/
def createView (_view : View) : Except TError Unit × List Event :=
  throwTypeORM "Schema update queries are not supported by MongoDB driver."

/-- `dropView` (lines 958-962). -/
def dropView (_target : View ⊕ String) : Except TError Unit × List Event :=
  throwTypeORM "Schema update queries are not supported by MongoDB driver."

/-- `renameTable` (lines 967-974). -/
def renameTable (_oldTableOrName _newTableOrName : Table ⊕ String) :
    Except TError Unit × List Event :=
  throwTypeORM "Schema update queries are not supported by MongoDB driver."

/-- `addColumn` (lines 979-986). -/
def addColumn (_tableOrName : Table ⊕ String) (_column : TableColumn) :
    Except TError Unit × List Event :=
  throwTypeORM "Schema update queries are not supported by MongoDB driver."

/-- `addColumns` (lines 991-998). -/
def addColumns (_tableOrName : Table ⊕ String) (_columns : List TableColumn) :
    Except TError Unit × List Event :=
  throwTypeORM "Schema update queries are not supported by MongoDB driver."

/-- `renameColumn` (lines 1003-1011). -/
def renameColumn (_tableOrName : Table ⊕ String)
    (_oldTableColumnOrName _newTableColumnOrName : TableColumn ⊕ String) :
    Except TError Unit × List Event :=
  throwTypeORM "Schema update queries are not supported by MongoDB driver."

/-- `changeColumn` (lines 1016-1024). -/
def changeColumn (_tableOrName : Table ⊕ String)
    (_oldTableColumnOrName : TableColumn ⊕ String) (_newColumn : TableColumn) :
    Except TError Unit × List Event :=
  throwTypeORM "Schema update queries are not supported by MongoDB driver."

/-- `changeColumns` (lines 1029-1036). -/
def changeColumns (_tableOrName : Table ⊕ String)
    (_changedColumns : List (TableColumn × TableColumn)) :
    Except TError Unit × List Event :=
  throwTypeORM "Schema update queries are not supported by MongoDB driver."

/-- `dropColumn` (lines 1041-1048). -/
def dropColumn (_tableOrName : Table ⊕ String)
    (_columnOrName : TableColumn ⊕ String) : Except TError Unit × List Event :=
  throwTypeORM "Schema update queries are not supported by MongoDB driver."

/-- `dropColumns` (lines 1053-1060). -/
def dropColumns (_tableOrName : Table ⊕ String)
    (_columns : List TableColumn ⊕ List String) :
    Except TError Unit × List Event :=
  throwTypeORM "Schema update queries are not supported by MongoDB driver."

/-- `createPrimaryKey` (lines 1065-1072). -/
def createPrimaryKey (_tableOrName : Table ⊕ String)
    (_columnNames : List String) : Except TError Unit × List Event :=
  throwTypeORM "Schema update queries are not supported by MongoDB driver."

/-- `updatePrimaryKeys` (lines 1077-1084). -/
def updatePrimaryKeys (_tableOrName : Table ⊕ String)
    (_columns : List TableColumn) : Except TError Unit × List Event :=
  throwTypeORM "Schema update queries are not supported by MongoDB driver."

/-- `dropPrimaryKey` (lines 1089-1093). -/
def dropPrimaryKey (_tableOrName : Table ⊕ String) :
    Except TError Unit × List Event :=
  throwTypeORM "Schema update queries are not supported by MongoDB driver."

/-- `createUniqueConstraint` (lines 1098-1105). -/
def createUniqueConstraint (_tableOrName : Table ⊕ String)
    (_uniqueConstraint : TableUnique) : Except TError Unit × List Event :=
  throwTypeORM "Schema update queries are not supported by MongoDB driver."

/-- `createUniqueConstraints` (lines 1110-1117). -/
def createUniqueConstraints (_tableOrName : Table ⊕ String)
    (_uniqueConstraints : List TableUnique) :
    Except TError Unit × List Event :=
  throwTypeORM "Schema update queries are not supported by MongoDB driver."

/-- `dropUniqueConstraint` (lines 1122-1129). -/
def dropUniqueConstraint (_tableOrName : Table ⊕ String)
    (_uniqueOrName : TableUnique ⊕ String) : Except TError Unit × List Event :=
  throwTypeORM "Schema update queries are not supported by MongoDB driver."

/-- `dropUniqueConstraints` (lines 1134-1141). -/
def dropUniqueConstraints (_tableOrName : Table ⊕ String)
    (_uniqueConstraints : List TableUnique) :
    Except TError Unit × List Event :=
  throwTypeORM "Schema update queries are not supported by MongoDB driver."

/-- `createCheckConstraint` (lines 1146-1153). -/
def createCheckConstraint (_tableOrName : Table ⊕ String)
    (_checkConstraint : TableCheck) : Except TError Unit × List Event :=
  throwTypeORM "Schema update queries are not supported by MongoDB driver."

/-- `createCheckConstraints` (lines 1158-1165). -/
def createCheckConstraints (_tableOrName : Table ⊕ String)
    (_checkConstraints : List TableCheck) : Except TError Unit × List Event :=
  throwTypeORM "Schema update queries are not supported by MongoDB driver."

/-- `dropCheckConstraint` (lines 1170-1177). -/
def dropCheckConstraint (_tableOrName : Table ⊕ String)
    (_checkOrName : TableCheck ⊕ String) : Except TError Unit × List Event :=
  throwTypeORM "Schema update queries are not supported by MongoDB driver."

/-- `dropCheckConstraints` (lines 1182-1189). -/
def dropCheckConstraints (_tableOrName : Table ⊕ String)
    (_checkConstraints : List TableCheck) : Except TError Unit × List Event :=
  throwTypeORM "Schema update queries are not supported by MongoDB driver."

/-- `createExclusionConstraint` (lines 1194-1201). -/
def createExclusionConstraint (_tableOrName : Table ⊕ String)
    (_exclusionConstraint : TableExclusion) :
    Except TError Unit × List Event :=
  throwTypeORM "Schema update queries are not supported by MongoDB driver."

/-- `createExclusionConstraints` (lines 1206-1213). -/
def createExclusionConstraints (_tableOrName : Table ⊕ String)
    (_exclusionConstraints : List TableExclusion) :
    Except TError Unit × List Event :=
  throwTypeORM "Schema update queries are not supported by MongoDB driver."

/-- `dropExclusionConstraint` (lines 1218-1225). -/
def dropExclusionConstraint (_tableOrName : Table ⊕ String)
    (_exclusionOrName : TableExclusion ⊕ String) :
    Except TError Unit × List Event :=
  throwTypeORM "Schema update queries are not supported by MongoDB driver."

/-- `dropExclusionConstraints` (lines 1230-1237). -/
def dropExclusionConstraints (_tableOrName : Table ⊕ String)
    (_exclusionConstraints : List TableExclusion) :
    Except TError Unit × List Event :=
  throwTypeORM "Schema update queries are not supported by MongoDB driver."

/-- `createForeignKey` (lines 1242-1249). -/
def createForeignKey (_tableOrName : Table ⊕ String)
    (_foreignKey : TableForeignKey) : Except TError Unit × List Event :=
  throwTypeORM "Schema update queries are not supported by MongoDB driver."

/-- `createForeignKeys` (lines 1254-1261). -/
def createForeignKeys (_tableOrName : Table ⊕ String)
    (_foreignKeys : List TableForeignKey) : Except TError Unit × List Event :=
  throwTypeORM "Schema update queries are not supported by MongoDB driver."

/-- `dropForeignKey` (lines 1266-1273). -/
def dropForeignKey (_tableOrName : Table ⊕ String)
    (_foreignKey : TableForeignKey) : Except TError Unit × List Event :=
  throwTypeORM "Schema update queries are not supported by MongoDB driver."

/-- `dropForeignKeys` (lines 1278-1285). -/
def dropForeignKeys (_tableOrName : Table ⊕ String)
    (_foreignKeys : List TableForeignKey) : Except TError Unit × List Event :=
  throwTypeORM "Schema update queries are not supported by MongoDB driver."

/-- `createIndex` (lines 1290-1297). -/
def createIndex (_tableOrName : Table ⊕ String) (_index : TableIndex) :
    Except TError Unit × List Event :=
  throwTypeORM "Schema update queries are not supported by MongoDB driver."

/-- `createIndices` (lines 1302-1309). -/
def createIndices (_tableOrName : Table ⊕ String) (_indices : List TableIndex) :
    Except TError Unit × List Event :=
  throwTypeORM "Schema update queries are not supported by MongoDB driver."

/-- `dropIndex` (lines 1314-1318). -/
def dropIndex (_collectionName : String) (_indexName : String) :
    Except TError Unit × List Event :=
  throwTypeORM "Schema update queries are not supported by MongoDB driver."

/-- `dropIndices` (lines 1323-1330). -/
def dropIndices (_tableOrName : Table ⊕ String) (_indices : List TableIndex) :
    Except TError Unit × List Event :=
  throwTypeORM "Schema update queries are not supported by MongoDB driver."

/-- States reachable by any sequence of `startTransaction`,
`commitTransaction`, `rollbackTransaction` calls from the initial state,
failing steps included (the environment is arbitrary at each step). -/
inductive Reachable (opts : MongoConnectionOptions) : RunnerState → Prop where
  | init : Reachable opts initialState
  | start (env : StartEnv) {st : RunnerState} (h : Reachable opts st) :
      Reachable opts (startTransaction opts env st).2.1
  | commit (env : TxEndEnv) {st : RunnerState} (h : Reachable opts st) :
      Reachable opts (commitTransaction opts env st).2.1
  | rollback (env : TxEndEnv) {st : RunnerState} (h : Reachable opts st) :
      Reachable opts (rollbackTransaction opts env st).2.1

/-- States reachable by sequences in which every step returned
successfully. -/
inductive ReachableOk (opts : MongoConnectionOptions) : RunnerState → Prop where
  | init : ReachableOk opts initialState
  | start (env : StartEnv) {st : RunnerState} (h : ReachableOk opts st)
      (hok : (startTransaction opts env st).1 = .ok ()) :
      ReachableOk opts (startTransaction opts env st).2.1
  | commit (env : TxEndEnv) {st : RunnerState} (h : ReachableOk opts st)
      (hok : (commitTransaction opts env st).1 = .ok ()) :
      ReachableOk opts (commitTransaction opts env st).2.1
  | rollback (env : TxEndEnv) {st : RunnerState} (h : ReachableOk opts st)
      (hok : (rollbackTransaction opts env st).1 = .ok ()) :
      ReachableOk opts (rollbackTransaction opts env st).2.1

/-- With transactions disabled every transaction method returns at once
without touching the state, so only the initial state is reachable. -/
theorem reachable_disabled {st : RunnerState}
    (h : Reachable ⟨false⟩ st) : st = initialState := by
  induction h with
  | init => rfl
  | start env h ih => subst ih; rfl
  | commit env h ih => subst ih; rfl
  | rollback env h ih => subst ih; rfl

/-- A successful `startTransaction` with transactions enabled leaves the flag
up and a session stored. -/
theorem startTransaction_ok_sets (env : StartEnv) (st : RunnerState)
    (hok : (startTransaction ⟨true⟩ env st).1 = .ok ()) :
    (startTransaction ⟨true⟩ env st).2.1.isTransactionActive = true ∧
    (startTransaction ⟨true⟩ env st).2.1.session.isSome = true := by
  obtain ⟨b1, b2, b3, b4⟩ := env
  rcases b1 with e | u1
  · simp [startTransaction] at hok
  · rcases b2 with e | s
    · simp [startTransaction] at hok
    · rcases b3 with e | u3
      · simp [startTransaction] at hok
      · rcases b4 with e | u4
        · simp [startTransaction] at hok
        · exact ⟨rfl, rfl⟩

/-- A successful `commitTransaction` with transactions enabled clears the
flag and the session. -/
theorem commitTransaction_ok_clears (env : TxEndEnv) (st : RunnerState)
    (hok : (commitTransaction ⟨true⟩ env st).1 = .ok ()) :
    (commitTransaction ⟨true⟩ env st).2.1 = ⟨false, none⟩ := by
  obtain ⟨fl, ss⟩ := st
  obtain ⟨e1, e2, e3, e4⟩ := env
  cases fl
  · simp [commitTransaction] at hok
  · rcases e1 with e | u1
    · simp [commitTransaction] at hok
    · cases ss
      · rcases e4 with e | u4
        · simp [commitTransaction] at hok
        · rfl
      · rcases e2 with e | u2
        · simp [commitTransaction] at hok
        · rcases e3 with e | u3
          · simp [commitTransaction] at hok
          · rcases e4 with e | u4
            · simp [commitTransaction] at hok
            · rfl

/-- A successful `rollbackTransaction` with transactions enabled clears the
flag and the session. -/
theorem rollbackTransaction_ok_clears (env : TxEndEnv) (st : RunnerState)
    (hok : (rollbackTransaction ⟨true⟩ env st).1 = .ok ()) :
    (rollbackTransaction ⟨true⟩ env st).2.1 = ⟨false, none⟩ := by
  obtain ⟨fl, ss⟩ := st
  obtain ⟨e1, e2, e3, e4⟩ := env
  cases fl
  · simp [rollbackTransaction] at hok
  · rcases e1 with e | u1
    · simp [rollbackTransaction] at hok
    · cases ss
      · rcases e4 with e | u4
        · simp [rollbackTransaction] at hok
        · rfl
      · rcases e2 with e | u2
        · simp [rollbackTransaction] at hok
        · rcases e3 with e | u3
          · simp [rollbackTransaction] at hok
          · rcases e4 with e | u4
            · simp [rollbackTransaction] at hok
            · rfl

/-- C1 (counterexample): the claim says every pass-through operation forwards
the active session when one exists, but `stats` (like `cursor`, `geoNear`,
`rename` and others) passes its options verbatim and never injects the
runner's session: in the reachable state with an active session `⟨0⟩`, the
`stats` call carries no session. -/
theorem c1_session_forwarding_counterexample :
    Reachable ⟨true⟩ ⟨true, some ⟨0⟩⟩ ∧
    (⟨true, some ⟨0⟩⟩ : RunnerState).session = some ⟨0⟩ ∧
    (stats ⟨true, some ⟨0⟩⟩ "users").session = none := by
  refine ⟨?_, rfl, rfl⟩
  exact Reachable.start ⟨.ok (), .ok ⟨0⟩, .ok (), .ok ()⟩ Reachable.init

/-- C1 (amended): the pass-through operations that build their options with
the spread-plus-session pattern forward exactly the runner's current session
(hence none when no transaction is active), while `cursor`,
`createCollectionIndexes`, `dropCollectionIndexes`, `geoHaystackSearch`,
`geoNear`, `collectionIndexes`, `collectionIndexExists`,
`collectionIndexInformation`, `isCapped`, `reIndex`, `rename` and `stats`
never forward the runner's session, even when one exists. -/
theorem c1_session_forwarding_amended (st : RunnerState) (c nn : String) :
    (aggregate st c).session = st.session ∧
    (bulkWrite st c).session = st.session ∧
    (count st c).session = st.session ∧
    (createCollectionIndex st c).session = st.session ∧
    (deleteMany st c).session = st.session ∧
    (deleteOne st c).session = st.session ∧
    (distinct st c).session = st.session ∧
    (dropCollectionIndex st c).session = st.session ∧
    (findOneAndDelete st c).session = st.session ∧
    (findOneAndReplace st c).session = st.session ∧
    (findOneAndUpdate st c).session = st.session ∧
    (group st c).session = st.session ∧
    (initializeOrderedBulkOp st c).session = st.session ∧
    (initializeUnorderedBulkOp st c).session = st.session ∧
    (insertMany st c).session = st.session ∧
    (insertOne st c).session = st.session ∧
    (listCollectionIndexes st c).session = st.session ∧
    (mapReduce st c).session = st.session ∧
    (parallelCollectionScan st c).session = st.session ∧
    (replaceOne st c).session = st.session ∧
    (watch st c).session = st.session ∧
    (updateMany st c).session = st.session ∧
    (updateOne st c).session = st.session ∧
    (cursor st c).session = none ∧
    (createCollectionIndexes st c).session = none ∧
    (dropCollectionIndexes st c).session = none ∧
    (geoHaystackSearch st c).session = none ∧
    (geoNear st c).session = none ∧
    (collectionIndexes st c).session = none ∧
    (collectionIndexExists st c).session = none ∧
    (collectionIndexInformation st c).session = none ∧
    (isCapped st c).session = none ∧
    (reIndex st c).session = none ∧
    (rename st c nn).session = none ∧
    (stats st c).session = none :=
  ⟨rfl, rfl, rfl, rfl, rfl, rfl, rfl, rfl, rfl, rfl, rfl, rfl, rfl, rfl, rfl,
   rfl, rfl, rfl, rfl, rfl, rfl, rfl, rfl, rfl, rfl, rfl, rfl, rfl, rfl, rfl,
   rfl, rfl, rfl, rfl, rfl⟩

/-- C2: every schema-definition-language operation, SQL-text execution
(`query`) and streaming (`stream`) fails with its descriptive
`TypeORMError` "not supported by MongoDB driver" message and emits no call
on the underlying client. -/
theorem c2_ddl_and_sql_not_supported
    (q : String) (ps : List String) (db sp : String) (bl : Bool)
    (t : Table) (v : View) (tn : Table ⊕ String) (vn : View ⊕ String)
    (col : TableColumn) (cn : TableColumn ⊕ String) (cols : List TableColumn)
    (colsOrNames : List TableColumn ⊕ List String)
    (changed : List (TableColumn × TableColumn)) (names : List String)
    (u : TableUnique) (un : TableUnique ⊕ String) (us : List TableUnique)
    (ck : TableCheck) (ckn : TableCheck ⊕ String) (cks : List TableCheck)
    (exc : TableExclusion) (excn : TableExclusion ⊕ String)
    (excs : List TableExclusion)
    (fk : TableForeignKey) (fks : List TableForeignKey)
    (ix : TableIndex) (ixs : List TableIndex) (s1 s2 : String) :
    query q ps = (.error (.typeORMError "Executing SQL query is not supported by MongoDB driver."), []) ∧
    stream q ps = (.error (.typeORMError "Stream is not supported by MongoDB driver. Use watch instead."), []) ∧
    createDatabase db = (.error (.typeORMError "Database create queries are not supported by MongoDB driver."), []) ∧
    dropDatabase db bl = (.error (.typeORMError "Database drop queries are not supported by MongoDB driver."), []) ∧
    createSchema sp bl = (.error (.typeORMError "Schema create queries are not supported by MongoDB driver."), []) ∧
    dropSchema sp bl = (.error (.typeORMError "Schema drop queries are not supported by MongoDB driver."), []) ∧
    createTable t = (.error (.typeORMError "Schema update queries are not supported by MongoDB driver."), []) ∧
    dropTable tn = (.error (.typeORMError "Schema update queries are not supported by MongoDB driver."), []) ∧
    createView v = (.error (.typeORMError "Schema update queries are not supported by MongoDB driver."), []) ∧
    dropView vn = (.error (.typeORMError "Schema update queries are not supported by MongoDB driver."), []) ∧
    renameTable tn tn = (.error (.typeORMError "Schema update queries are not supported by MongoDB driver."), []) ∧
    addColumn tn col = (.error (.typeORMError "Schema update queries are not supported by MongoDB driver."), []) ∧
    addColumns tn cols = (.error (.typeORMError "Schema update queries are not supported by MongoDB driver."), []) ∧
    renameColumn tn cn cn = (.error (.typeORMError "Schema update queries are not supported by MongoDB driver."), []) ∧
    changeColumn tn cn col = (.error (.typeORMError "Schema update queries are not supported by MongoDB driver."), []) ∧
    changeColumns tn changed = (.error (.typeORMError "Schema update queries are not supported by MongoDB driver."), []) ∧
    dropColumn tn cn = (.error (.typeORMError "Schema update queries are not supported by MongoDB driver."), []) ∧
    dropColumns tn colsOrNames = (.error (.typeORMError "Schema update queries are not supported by MongoDB driver."), []) ∧
    createPrimaryKey tn names = (.error (.typeORMError "Schema update queries are not supported by MongoDB driver."), []) ∧
    updatePrimaryKeys tn cols = (.error (.typeORMError "Schema update queries are not supported by MongoDB driver."), []) ∧
    dropPrimaryKey tn = (.error (.typeORMError "Schema update queries are not supported by MongoDB driver."), []) ∧
    createUniqueConstraint tn u = (.error (.typeORMError "Schema update queries are not supported by MongoDB driver."), []) ∧
    createUniqueConstraints tn us = (.error (.typeORMError "Schema update queries are not supported by MongoDB driver."), []) ∧
    dropUniqueConstraint tn un = (.error (.typeORMError "Schema update queries are not supported by MongoDB driver."), []) ∧
    dropUniqueConstraints tn us = (.error (.typeORMError "Schema update queries are not supported by MongoDB driver."), []) ∧
    createCheckConstraint tn ck = (.error (.typeORMError "Schema update queries are not supported by MongoDB driver."), []) ∧
    createCheckConstraints tn cks = (.error (.typeORMError "Schema update queries are not supported by MongoDB driver."), []) ∧
    dropCheckConstraint tn ckn = (.error (.typeORMError "Schema update queries are not supported by MongoDB driver."), []) ∧
    dropCheckConstraints tn cks = (.error (.typeORMError "Schema update queries are not supported by MongoDB driver."), []) ∧
    createExclusionConstraint tn exc = (.error (.typeORMError "Schema update queries are not supported by MongoDB driver."), []) ∧
    createExclusionConstraints tn excs = (.error (.typeORMError "Schema update queries are not supported by MongoDB driver."), []) ∧
    dropExclusionConstraint tn excn = (.error (.typeORMError "Schema update queries are not supported by MongoDB driver."), []) ∧
    dropExclusionConstraints tn excs = (.error (.typeORMError "Schema update queries are not supported by MongoDB driver."), []) ∧
    createForeignKey tn fk = (.error (.typeORMError "Schema update queries are not supported by MongoDB driver."), []) ∧
    createForeignKeys tn fks = (.error (.typeORMError "Schema update queries are not supported by MongoDB driver."), []) ∧
    dropForeignKey tn fk = (.error (.typeORMError "Schema update queries are not supported by MongoDB driver."), []) ∧
    dropForeignKeys tn fks = (.error (.typeORMError "Schema update queries are not supported by MongoDB driver."), []) ∧
    createIndex tn ix = (.error (.typeORMError "Schema update queries are not supported by MongoDB driver."), []) ∧
    createIndices tn ixs = (.error (.typeORMError "Schema update queries are not supported by MongoDB driver."), []) ∧
    dropIndex s1 s2 = (.error (.typeORMError "Schema update queries are not supported by MongoDB driver."), []) ∧
    dropIndices tn ixs = (.error (.typeORMError "Schema update queries are not supported by MongoDB driver."), []) :=
  ⟨rfl, rfl, rfl, rfl, rfl, rfl, rfl, rfl, rfl, rfl, rfl, rfl, rfl, rfl, rfl,
   rfl, rfl, rfl, rfl, rfl, rfl, rfl, rfl, rfl, rfl, rfl, rfl, rfl, rfl, rfl,
   rfl, rfl, rfl, rfl, rfl, rfl, rfl, rfl, rfl, rfl, rfl⟩

/-- C3 (counterexample): the session-iff-active invariant fails on a
reachable state: with transactions enabled, a `startTransaction` call whose
`startSession()` fails leaves `isTransactionActive = true` with no session. -/
theorem c3_invariant_counterexample :
    ¬ (∀ (opts : MongoConnectionOptions) (st : RunnerState),
        Reachable opts st → (st.session.isSome ↔ st.isTransactionActive = true)) := by
  intro h
  have hr : Reachable ⟨true⟩ (⟨true, none⟩ : RunnerState) :=
    Reachable.start ⟨.ok (), .error (.clientError 0), .ok (), .ok ()⟩
      Reachable.init
  have h2 := (h ⟨true⟩ ⟨true, none⟩ hr).2 rfl
  simp at h2

/-- C3 (amended): in every state reachable by a sequence of transaction
calls in which each step returned successfully, the session reference is
defined exactly when the transaction-active flag is true; a failing
`startTransaction` step can break the invariant in either direction. -/
theorem c3_invariant_successful_runs (opts : MongoConnectionOptions)
    (st : RunnerState) (h : ReachableOk opts st) :
    st.session.isSome = st.isTransactionActive := by
  obtain ⟨eb⟩ := opts
  cases eb
  · induction h with
    | init => rfl
    | start env h hok ih => exact ih
    | commit env h hok ih => exact ih
    | rollback env h hok ih => exact ih
  · induction h with
    | init => rfl
    | start env h hok ih =>
        obtain ⟨h1, h2⟩ := startTransaction_ok_sets env _ hok
        rw [h2, h1]
    | commit env h hok ih =>
        rw [commitTransaction_ok_clears env _ hok]
        rfl
    | rollback env h hok ih =>
        rw [rollbackTransaction_ok_clears env _ hok]
        rfl

/-- C3 (amended, witness): the invariant instantiated at the state reached
by one successful start. -/
theorem c3_invariant_successful_runs_witness :
    (⟨true, some ⟨3⟩⟩ : RunnerState).session.isSome =
      (⟨true, some ⟨3⟩⟩ : RunnerState).isTransactionActive :=
  c3_invariant_successful_runs ⟨true⟩ ⟨true, some ⟨3⟩⟩
    (ReachableOk.start ⟨.ok (), .ok ⟨3⟩, .ok (), .ok ()⟩ ReachableOk.init rfl)

/-- C4: with transactions enabled and no active transaction, both
`commitTransaction` and `rollbackTransaction` fail with
`TransactionNotStartedError` leaving the state untouched and contacting
nothing; with transactions disabled both return as no-ops without error,
without modifying the flag or session, and without contacting anything. -/
theorem c4_commit_rollback_guards (env : TxEndEnv) (s : Option ClientSession)
    (st : RunnerState) :
    commitTransaction ⟨true⟩ env ⟨false, s⟩ =
      (.error .transactionNotStarted, ⟨false, s⟩, []) ∧
    rollbackTransaction ⟨true⟩ env ⟨false, s⟩ =
      (.error .transactionNotStarted, ⟨false, s⟩, []) ∧
    commitTransaction ⟨false⟩ env st = (.ok (), st, []) ∧
    rollbackTransaction ⟨false⟩ env st = (.ok (), st, []) :=
  ⟨rfl, rfl, rfl, rfl⟩

/-- C5 (counterexample): the claim's "the adapter state is exactly the state
before the call" fails when `startTransaction` is invoked while a
transaction is already active (a reachable situation, since this layer does
not guard double starts): the failing before-start notification leaves the
flag forced to false, so the post-state differs from the pre-state. -/
theorem c5_before_start_counterexample :
    Reachable ⟨true⟩ ⟨true, some ⟨0⟩⟩ ∧
    startTransaction ⟨true⟩
        ⟨.error (.broadcastError 0), .ok ⟨1⟩, .ok (), .ok ()⟩
        ⟨true, some ⟨0⟩⟩ =
      (.error (.broadcastError 0), ⟨false, some ⟨0⟩⟩,
        [.broadcast "BeforeTransactionStart"]) ∧
    (⟨false, some ⟨0⟩⟩ : RunnerState) ≠ ⟨true, some ⟨0⟩⟩ := by
  refine ⟨?_, rfl, by decide⟩
  exact Reachable.start ⟨.ok (), .ok ⟨0⟩, .ok (), .ok ()⟩ Reachable.init

/-- C5 (amended): when the before-start notification fails,
`startTransaction` re-raises that failure, forces the flag to false, and
creates no session (the only external call is the notification itself); the
post-state is the pre-state with the flag cleared — identical to the
pre-state exactly when no transaction was active at the call. -/
theorem c5_before_start_revert (env : StartEnv) (st : RunnerState)
    (e : TError) (h : env.beforeStart = .error e) :
    startTransaction ⟨true⟩ env st =
      (.error e, { st with isTransactionActive := false },
        [.broadcast "BeforeTransactionStart"]) := by
  obtain ⟨b1, b2, b3, b4⟩ := env
  subst h
  rfl

/-- C5 (amended, witness): the revert behaviour at a concrete failing
notification from the idle state. -/
theorem c5_before_start_revert_witness :
    startTransaction ⟨true⟩
        ⟨.error (.broadcastError 2), .ok ⟨1⟩, .ok (), .ok ()⟩ initialState =
      (.error (.broadcastError 2),
        { initialState with isTransactionActive := false },
        [.broadcast "BeforeTransactionStart"]) :=
  c5_before_start_revert ⟨.error (.broadcastError 2), .ok ⟨1⟩, .ok (), .ok ()⟩
    initialState (.broadcastError 2) rfl

/-- C6: a successful `startTransaction` with transactions enabled leaves the
flag true and a session defined; a successful `commitTransaction` or
`rollbackTransaction` from any reachable state leaves the flag false and no
session. -/
theorem c6_lifecycle_postconditions (opts : MongoConnectionOptions)
    (senv : StartEnv) (cenv renv : TxEndEnv) (st : RunnerState) :
    ((startTransaction ⟨true⟩ senv st).1 = .ok () →
      (startTransaction ⟨true⟩ senv st).2.1.isTransactionActive = true ∧
      (startTransaction ⟨true⟩ senv st).2.1.session.isSome = true) ∧
    (Reachable opts st → (commitTransaction opts cenv st).1 = .ok () →
      (commitTransaction opts cenv st).2.1.isTransactionActive = false ∧
      (commitTransaction opts cenv st).2.1.session = none) ∧
    (Reachable opts st → (rollbackTransaction opts renv st).1 = .ok () →
      (rollbackTransaction opts renv st).2.1.isTransactionActive = false ∧
      (rollbackTransaction opts renv st).2.1.session = none) := by
  obtain ⟨eb⟩ := opts
  refine ⟨fun hok => startTransaction_ok_sets senv st hok, ?_, ?_⟩
  · intro hreach hok
    cases eb
    · have h0 := reachable_disabled hreach
      subst h0
      exact ⟨rfl, rfl⟩
    · rw [commitTransaction_ok_clears cenv st hok]
      exact ⟨rfl, rfl⟩
  · intro hreach hok
    cases eb
    · have h0 := reachable_disabled hreach
      subst h0
      exact ⟨rfl, rfl⟩
    · rw [rollbackTransaction_ok_clears renv st hok]
      exact ⟨rfl, rfl⟩

/-- C6 (witness): the postconditions at a concrete successful start, commit
and rollback from the reachable active state with session `⟨7⟩`. -/
theorem c6_lifecycle_postconditions_witness :
    ((startTransaction ⟨true⟩ ⟨.ok (), .ok ⟨7⟩, .ok (), .ok ()⟩
        ⟨true, some ⟨7⟩⟩).2.1.isTransactionActive = true ∧
      (startTransaction ⟨true⟩ ⟨.ok (), .ok ⟨7⟩, .ok (), .ok ()⟩
        ⟨true, some ⟨7⟩⟩).2.1.session.isSome = true) ∧
    ((commitTransaction ⟨true⟩ ⟨.ok (), .ok (), .ok (), .ok ()⟩
        ⟨true, some ⟨7⟩⟩).2.1.isTransactionActive = false ∧
      (commitTransaction ⟨true⟩ ⟨.ok (), .ok (), .ok (), .ok ()⟩
        ⟨true, some ⟨7⟩⟩).2.1.session = none) ∧
    ((rollbackTransaction ⟨true⟩ ⟨.ok (), .ok (), .ok (), .ok ()⟩
        ⟨true, some ⟨7⟩⟩).2.1.isTransactionActive = false ∧
      (rollbackTransaction ⟨true⟩ ⟨.ok (), .ok (), .ok (), .ok ()⟩
        ⟨true, some ⟨7⟩⟩).2.1.session = none) := by
  have hr : Reachable ⟨true⟩ (⟨true, some ⟨7⟩⟩ : RunnerState) :=
    Reachable.start ⟨.ok (), .ok ⟨7⟩, .ok (), .ok ()⟩ Reachable.init
  have h := c6_lifecycle_postconditions ⟨true⟩ ⟨.ok (), .ok ⟨7⟩, .ok (), .ok ()⟩
    ⟨.ok (), .ok (), .ok (), .ok ()⟩ ⟨.ok (), .ok (), .ok (), .ok ()⟩
    ⟨true, some ⟨7⟩⟩
  exact ⟨h.1 rfl, h.2.1 hr rfl, h.2.2 hr rfl⟩

/-- C7: when `commitTransaction` runs with an active transaction and a
defined session and the session's commit call, or its end call, fails, the
failure is raised to the caller and the flag and session are left in their
prior active state. -/
theorem c7_commit_failure_keeps_state (env : TxEndEnv) (s : ClientSession)
    (e : TError) (h1 : env.beforeBroadcast = .ok ())
    (h2 : env.endTx = .error e ∨
      (env.endTx = .ok () ∧ env.endSession = .error e)) :
    (commitTransaction ⟨true⟩ env ⟨true, some s⟩).1 = .error e ∧
    (commitTransaction ⟨true⟩ env ⟨true, some s⟩).2.1 = ⟨true, some s⟩ := by
  obtain ⟨e1, e2, e3, e4⟩ := env
  subst h1
  rcases h2 with h | ⟨h, h'⟩
  · subst h
    exact ⟨rfl, rfl⟩
  · subst h
    subst h'
    exact ⟨rfl, rfl⟩

/-- C7 (witness): a concrete failing session commit leaves the active
state in place. -/
theorem c7_commit_failure_keeps_state_witness :
    (commitTransaction ⟨true⟩ ⟨.ok (), .error (.clientError 3), .ok (), .ok ()⟩
      ⟨true, some ⟨2⟩⟩).1 = .error (.clientError 3) ∧
    (commitTransaction ⟨true⟩ ⟨.ok (), .error (.clientError 3), .ok (), .ok ()⟩
      ⟨true, some ⟨2⟩⟩).2.1 = ⟨true, some ⟨2⟩⟩ :=
  c7_commit_failure_keeps_state
    ⟨.ok (), .error (.clientError 3), .ok (), .ok ()⟩ ⟨2⟩ (.clientError 3)
    rfl (Or.inl rfl)

/-- C8: with transactions disabled, `startTransaction` returns successfully,
changes nothing, and performs no external call (in particular fires no
notification); in every state reachable under that configuration the flag is
false and no session exists. -/
theorem c8_disabled_start_noop (env : StartEnv) (st : RunnerState)
    (h : Reachable ⟨false⟩ st) :
    startTransaction ⟨false⟩ env st = (.ok (), st, []) ∧
    st.isTransactionActive = false ∧ st.session = none := by
  have h0 := reachable_disabled h
  subst h0
  exact ⟨rfl, rfl, rfl⟩

/-- C8 (witness): the no-op at the initial state. -/
theorem c8_disabled_start_noop_witness :
    startTransaction ⟨false⟩ ⟨.ok (), .ok ⟨0⟩, .ok (), .ok ()⟩ initialState =
      (.ok (), initialState, []) ∧
    initialState.isTransactionActive = false ∧ initialState.session = none :=
  c8_disabled_start_noop ⟨.ok (), .ok ⟨0⟩, .ok (), .ok ()⟩ initialState
    Reachable.init

/-- C9: `clearDatabase` issues the database-level `dropDatabase` and
`clearTable` issues `dropCollection` on the named collection, both without a
session in the call and for every runner state (transaction active or not). -/
theorem c9_clear_operations (st : RunnerState)
    (database collectionName : String) :
    clearDatabase st database = ⟨database, "dropDatabase", none, none⟩ ∧
    clearTable st database collectionName =
      ⟨database, "dropCollection", some collectionName, none⟩ :=
  ⟨rfl, rfl⟩

/-- C10: when the session is created and the transaction begun but the
`AfterTransactionStart` notification fails, the error propagates while the
flag stays true and the session stays set, the transaction remaining
active. -/
theorem c10_after_start_failure (env : StartEnv) (st : RunnerState)
    (s : ClientSession) (e : TError)
    (h1 : env.beforeStart = .ok ()) (h2 : env.startSession = .ok s)
    (h3 : env.beginTx = .ok ()) (h4 : env.afterStart = .error e) :
    startTransaction ⟨true⟩ env st =
      (.error e, ⟨true, some s⟩,
        [.broadcast "BeforeTransactionStart", .startSession, .sessionBegin s,
         .logQuery "BEGIN TRANSACTION", .broadcast "AfterTransactionStart"]) := by
  obtain ⟨b1, b2, b3, b4⟩ := env
  subst h1
  subst h2
  subst h3
  subst h4
  rfl

/-- C10 (witness): a concrete failing after-start notification leaves the
transaction active with session `⟨5⟩`. -/
theorem c10_after_start_failure_witness :
    startTransaction ⟨true⟩
        ⟨.ok (), .ok ⟨5⟩, .ok (), .error (.broadcastError 1)⟩ initialState =
      (.error (.broadcastError 1), ⟨true, some ⟨5⟩⟩,
        [.broadcast "BeforeTransactionStart", .startSession, .sessionBegin ⟨5⟩,
         .logQuery "BEGIN TRANSACTION", .broadcast "AfterTransactionStart"]) :=
  c10_after_start_failure ⟨.ok (), .ok ⟨5⟩, .ok (), .error (.broadcastError 1)⟩
    initialState ⟨5⟩ (.broadcastError 1) rfl rfl rfl rfl

end MongoQueryRunner
